import Mathlib

/-!
# Session Generation Engine — shallow embedding

A shallow embedding of the session generation engine of
`src/reverse-engineered/00/app.py` (routes `create_session`,
`generate_session_content`, `pause_session`, `resume_session`,
`sanitize_session_story`, and the helpers `generate_story_opening`,
`generate_story_continuation`, `generate_chat_response`,
`generate_complete_story`, `generate_multi_character_conversation`,
`sanitize_story`), together with `chat_call` of
`src/reverse-engineered/00/core.py`.

Modelling conventions:
* The persisted JSON session document becomes the `Session` structure; a
  whole-document write is modelled by returning the new `Session` value
  (within one operation there is a single writer, so the re-read of the
  file at the top of a loop iteration yields the value threaded through).
* The external generation provider is an oracle `Nat → Except Unit String`
  giving, for each provider call made by the operation (numbered in call
  order), either the raw model output or a failure; `chat_call` raising
  `ModelError` (API failure or `None` content) is the `.error` case.
* Wall-clock timestamps carried by messages are not modelled (no claim
  mentions them); `paused_at` keeps its timestamp as an abstract `Nat`.
* `Option Nat` models a JSON field that can be `null` (`none` = `null`).
  Story sessions always carry an explicit `parts` key (possibly `null`)
  and a `turns` key that is `null`; chat sessions carry an integer
  `turns` key, so `Option.getD 6` coincides with Python's
  `session_data.get('turns', 6)` on the documents the engine creates.
-/

namespace SessionEngine

/-- Message kind: Python `msg['type']` is one of `"system" | "user" | "ai"`. -/
inductive MsgType where
  | system
  | user
  | ai
deriving DecidableEq, Repr

/-- One entry of the session's `messages` list.  `character` is the optional
speaker name attached by the multi-character loop; `sanitized` is the flag
set by the sanitize route (absent key modelled as `false`). -/
structure Message where
  type : MsgType
  content : String
  character : Option String := none
  sanitized : Bool := false
deriving DecidableEq, Repr

/-- One resolved participant of the session (`{'id': ..., 'name': ..., 'data': ...}`;
the character `data` blob only feeds prompt text and sampling parameters,
which the provider oracle abstracts, so it is not carried). -/
structure Participant where
  id : String
  name : String
deriving DecidableEq, Repr

/-- The persisted session document (fields of the JSON object that the
engine reads or writes). -/
structure Session where
  type : String
  chatMode : Option String := none
  characters : List Participant
  scenario : String := ""
  setting : String := ""
  turns : Option Nat := none
  parts : Option Nat := none
  status : String := "active"
  paused : Bool := false
  paused_at : Option Nat := none
  is_completed : Bool := false
  messages : List Message := []
deriving DecidableEq, Repr

/-- `[msg for msg in session_data.get('messages', []) if msg['type'] == 'ai']`. -/
def aiMessages (msgs : List Message) : List Message :=
  msgs.filter (fun m => m.type == MsgType.ai)

/-- `len([msg for msg in ... if msg['type'] == 'ai'])` — the turn count. -/
def aiCount (msgs : List Message) : Nat :=
  (aiMessages msgs).length

/-- Python's `str.strip()`: drop leading and trailing whitespace.  Defined by
structural recursion over the character list so that concrete instances
evaluate inside the kernel (Lean's `String.trim` is extensionally the same on
the whitespace the claims exercise but does not reduce definitionally). -/
def pyStrip (s : String) : String :=
  ⟨((s.data.dropWhile Char.isWhitespace).reverse.dropWhile
      Char.isWhitespace).reverse⟩

/-- `core.chat_call`: returns `result.strip()` on success; raises `ModelError`
on API failure or a `None` result (both folded into `.error`). -/
def chat_call (p : Except Unit String) : Except Unit String :=
  match p with
  | .ok r => .ok (pyStrip r)
  | .error e => .error e

/-- Fallback string returned by `generate_chat_response` when anything raises. -/
def chatFallback : String :=
  "I'm having trouble responding right now. Please try again."

/-- Fallback string returned by `generate_story_continuation` when anything raises. -/
def storyFallback : String :=
  "I'm having trouble generating the story continuation. Please try again."

/-- Speaker selection of `generate_chat_response`:
`char_index = len([m for m in messages if m['type'] == 'ai']) % len(characters)`;
`characters[char_index]`.  `none` models the `ZeroDivisionError` raised when
the participant list is empty (caught by the enclosing `except`). -/
def chat_selected_speaker (s : Session) : Option Participant :=
  s.characters[aiCount s.messages % s.characters.length]?

/-- Speaker selection of `generate_story_continuation`:
`char_index = len(messages) % len(characters)` — note: **total** message
count, not the ai-message count. -/
def story_selected_speaker (s : Session) : Option Participant :=
  s.characters[s.messages.length % s.characters.length]?

/-- `generate_chat_response(session_data, user_input)`: picks the speaker,
calls the provider, returns `response.strip()`; any exception (including an
empty participant list or a `ModelError`) yields the fallback string. -/
def generate_chat_response (s : Session) (user_input : String)
    (p : Except Unit String) : String :=
  match chat_selected_speaker s with
  | none => chatFallback
  | some _ =>
    match chat_call p with
    | .ok r => pyStrip r
    | .error _ => chatFallback

/-- `generate_story_continuation(session_data, user_input)`: same shape as the
chat variant but with the story speaker selection and story fallback. -/
def generate_story_continuation (s : Session) (user_input : String)
    (p : Except Unit String) : String :=
  match story_selected_speaker s with
  | none => storyFallback
  | some _ =>
    match chat_call p with
    | .ok r => pyStrip r
    | .error _ => storyFallback

/-- `generate_story_opening(session_data)`: returns `response.strip()` using
the first character's configuration, or `None` when the participant list is
empty (`if characters:` fails) or the provider call raises. -/
def generate_story_opening (s : Session) (p : Except Unit String) : Option String :=
  if s.characters.isEmpty then none
  else
    match chat_call p with
    | .ok r => some (pyStrip r)
    | .error _ => none

/-- A freshly appended ai message of the generation paths (no speaker tag). -/
def aiMsg (content : String) : Message :=
  { type := MsgType.ai, content := content }

/-- A freshly appended user message of the generate route. -/
def userMsg (content : String) : Message :=
  { type := MsgType.user, content := content }

/-- Result of `generate_complete_story`: `doneTrue` is the bare `return True`
of the unlimited (999) branch, `report` the `completed: True` JSON of the
bounded branch, `errResp` the 500 JSON produced by the enclosing `except`. -/
inductive StoryRunResult where
  | doneTrue
  | report (response : String) (current maxParts : Nat)
  | errResp
deriving DecidableEq, Repr

/-- The `for part_num in range(1, max_parts)` loop of `generate_complete_story`:
each iteration re-reads the persisted document (the threaded value), generates
one continuation with empty steering input, and appends-and-checkpoints the
result when it is non-empty.  `fuel` is the number of remaining iterations and
`part_num` the provider call index of the current iteration. -/
def story_loop (provider : Nat → Except Unit String) :
    Nat → Nat → Session → Session
  | 0, _, s => s
  | fuel + 1, part_num, s =>
    let response := generate_story_continuation s "" (provider part_num)
    let s' :=
      if response = "" then s
      else { s with messages := s.messages ++ [aiMsg response] }
    story_loop provider fuel (part_num + 1) s'

/-- `generate_complete_story(session_data, session_file)`.  The opening uses
provider call `0`; the continuation of `part_num` uses provider call
`part_num`.  With `parts == 999` only the opening is generated, the status is
(re)set to `'active'` and the function returns bare `True`; with `parts` null
the opening is still generated and saved, then `range(1, None)` raises
`TypeError`, caught by the `except` (error response, 500); otherwise the
opening replaces the message list, `max_parts - 1` continuations are appended,
and the session is marked completed. -/
def generate_complete_story (provider : Nat → Except Unit String)
    (s : Session) : Session × StoryRunResult :=
  match s.parts with
  | none =>
    let s1 :=
      match generate_story_opening s (provider 0) with
      | some o => if o = "" then s else { s with messages := [aiMsg o] }
      | none => s
    (s1, StoryRunResult.errResp)
  | some mp =>
    if mp = 999 then
      match generate_story_opening s (provider 0) with
      | some o =>
        if o = "" then (s, StoryRunResult.doneTrue)
        else ({ s with messages := [aiMsg o], status := "active" },
              StoryRunResult.doneTrue)
      | none => (s, StoryRunResult.doneTrue)
    else
      let s1 :=
        match generate_story_opening s (provider 0) with
        | some o => if o = "" then s else { s with messages := [aiMsg o] }
        | none => s
      let s2 := story_loop provider (mp - 1) 1 s1
      let s3 := { s2 with status := "completed", is_completed := true }
      let all_parts := (aiMessages s3.messages).map (fun m => m.content)
      (s3, StoryRunResult.report (String.intercalate "\n\n" all_parts)
            all_parts.length mp)

/-- Outcome of `generate_multi_character_conversation`: `noneRet` is the bare
`return None` of the `len(characters) < 2` guard, `falseRet` the `return False`
of the `except` (provider failure aborts the loop), `trueRet` the successful
`return True`. -/
inductive MultiOutcome where
  | noneRet
  | falseRet
  | trueRet
deriving DecidableEq, Repr

/-- The `if response:` test of the multi-character loop applied to the oracle:
`chat_call` succeeded and its stripped result is non-empty. -/
def okNonemptyB (p : Except Unit String) : Bool :=
  match p with
  | .ok r => !(pyStrip r == "")
  | .error _ => false

/-- The `for turn in range(max_turns)` loop of
`generate_multi_character_conversation`: iteration `turn` speaks as
`characters[turn % len(characters)]`, calls the provider (call index `turn`),
and on a non-empty response appends the tagged ai message and checkpoints.
A raised `ModelError` (or an impossible index error) propagates to the
enclosing `except`, leaving the document at the last checkpoint (`false`). -/
def multi_loop (provider : Nat → Except Unit String) :
    Nat → Nat → Session → Session × Bool
  | 0, _, s => (s, true)
  | remaining + 1, turn, s =>
    match s.characters[turn % s.characters.length]? with
    | none => (s, false)
    | some c =>
      match chat_call (provider turn) with
      | .error _ => (s, false)
      | .ok response =>
        if response = "" then multi_loop provider remaining (turn + 1) s
        else
          let s' := { s with messages := s.messages ++
            [{ type := MsgType.ai, character := some c.name,
               content := pyStrip response, sanitized := false }] }
          multi_loop provider remaining (turn + 1) s'

/-- `generate_multi_character_conversation(session_data, session_file)`:
returns `None` when fewer than two participants, otherwise runs
`turns` (default 6) loop iterations; on success marks the session completed,
on a caught exception returns `False` with the last checkpoint persisted. -/
def generate_multi_character_conversation (provider : Nat → Except Unit String)
    (s : Session) : Session × MultiOutcome :=
  if s.characters.length < 2 then (s, MultiOutcome.noneRet)
  else
    match multi_loop provider (s.turns.getD 6) 0 s with
    | (s', true) =>
      ({ s' with status := "completed", is_completed := true },
       MultiOutcome.trueRet)
    | (s', false) => (s', MultiOutcome.falseRet)

/-- Progress object of the generate route's JSON (`max` is `null` for
unlimited sessions). -/
structure GenProgress where
  current : Nat
  max : Option Nat
deriving DecidableEq, Repr

/-- Response of the `/api/sessions/<id>/generate` route.
`pausedResp` is the 400 `paused: True` JSON; `sessionCompleted` the early
`completed: True` return that appends nothing; `content` the normal JSON with
its `completed` flag and progress; `storyDone` the `completed: True` JSON
produced by a bounded `generate_complete_story`; `invalidTrue` the bare `True`
the 999 branch returns to the route (not a valid HTTP response body);
`err` a 500 error JSON. -/
inductive GenResponse where
  | pausedResp
  | sessionCompleted (current max : Nat)
  | content (response : String) (completed : Bool) (progress : GenProgress)
  | storyDone (response : String) (current maxParts : Nat)
  | invalidTrue
  | err
deriving DecidableEq, Repr

/-- The `completed` field of the route's JSON, when present. -/
def GenResponse.completedField : GenResponse → Option Bool
  | .pausedResp => none
  | .sessionCompleted _ _ => some true
  | .content _ c _ => some c
  | .storyDone _ _ _ => some true
  | .invalidTrue => none
  | .err => none

/-- The `progress.max` field of the route's JSON, when present
(`some none` = the field is present with value `null`). -/
def GenResponse.progressMaxField : GenResponse → Option (Option Nat)
  | .content _ _ pr => some pr.max
  | .storyDone _ _ mp => some (some mp)
  | _ => none

/-- Lift a `StoryRunResult` to what the route returns for it. -/
def routeStoryResult : StoryRunResult → GenResponse
  | StoryRunResult.doneTrue => GenResponse.invalidTrue
  | StoryRunResult.report r c m => GenResponse.storyDone r c m
  | StoryRunResult.errResp => GenResponse.err

/-- `generate_session_content(session_id)` — the `/generate` route.  Returns
the persisted document after the call together with the response.  Control
flow mirrors the source: paused check; `is_quick_chat = turns == 999`;
limit pre-check (skipped for quick chats); story-with-empty-input delegates to
`generate_complete_story`; otherwise one turn is generated, appended when
non-empty (preceded by the user message when steering input was given) and
checkpointed; quick chats always report `completed: False` with `max: null`;
bounded sessions recount, mark completion, and report progress. -/
def generate_session_content (s : Session) (user_input : String)
    (provider : Nat → Except Unit String) : Session × GenResponse :=
  if s.paused then (s, GenResponse.pausedResp)
  else
    let is_quick : Bool := s.turns == some 999
    let cur := aiCount s.messages
    let earlyLimit : Option (Nat × Nat) :=
      if is_quick then none
      else if s.type == "chat" then
        let mt := s.turns.getD 6
        if mt ≤ cur then some (cur, mt) else none
      else
        match s.parts with
        | some mp => if mp ≠ 999 ∧ mp ≤ cur then some (cur, mp) else none
        | none => none
    match earlyLimit with
    | some (c, m) => (s, GenResponse.sessionCompleted c m)
    | none =>
      if s.type == "story" && user_input == "" then
        let res := generate_complete_story provider s
        (res.1, routeStoryResult res.2)
      else
        let response :=
          if s.type == "story" then
            generate_story_continuation s user_input (provider 0)
          else generate_chat_response s user_input (provider 0)
        let s' :=
          if response = "" then s
          else
            let withUser :=
              if user_input = "" then s.messages
              else s.messages ++ [userMsg user_input]
            { s with messages := withUser ++ [aiMsg response] }
        if is_quick then
          (s', GenResponse.content response false
                ⟨aiCount s'.messages, none⟩)
        else
          let cur' := aiCount s'.messages
          let completed : Bool :=
            if s.type == "chat" then decide (s.turns.getD 6 ≤ cur')
            else
              match s.parts with
              | some mp => decide (mp ≠ 999 ∧ mp ≤ cur')
              | none => false
          let s'' :=
            if completed then
              { s' with status := "completed", is_completed := true }
            else s'
          let pmax : Option Nat :=
            if s.type == "chat" then some (s.turns.getD 6)
            else
              match s.parts with
              | some mp => if mp = 999 then none else some mp
              | none => none
          (s'', GenResponse.content response completed ⟨cur', pmax⟩)

/-- `pause_session(session_id)`: sets `paused = True` and a `paused_at`
timestamp, rewrites the document; nothing else is touched. -/
def pause_session (s : Session) (now : Nat) : Session :=
  { s with paused := true, paused_at := some now }

/-- `resume_session(session_id)`: pops the `paused` and `paused_at` keys,
rewrites the document; nothing else is touched. -/
def resume_session (s : Session) : Session :=
  { s with paused := false, paused_at := none }

/-- `sanitize_story(story_content, preset_id)`: one secondary generation call
(`secondary`, already carrying the optional `None` content of the response);
on a truthy result returns `result.strip()`, otherwise — including any
exception — returns the original text unchanged.  `preset_id` only selects
sampling parameters for the abstracted call. -/
def sanitize_story (story_content : String) (preset_id : String)
    (secondary : Except Unit (Option String)) : String :=
  match secondary with
  | .ok (some result) => if result = "" then story_content else pyStrip result
  | .ok none => story_content
  | .error _ => story_content

/-- Result of the sanitize route: the two 400 validation rejections and the
success JSON (with the reported original/sanitized lengths). -/
inductive SanitizeResult where
  | notStoryErr
  | noContentErr
  | success (original_length sanitized_length : Nat)
deriving DecidableEq, Repr

/-- The single ai message the sanitize route writes back. -/
def sanitizedMsg (content : String) : Message :=
  { type := MsgType.ai, content := content, sanitized := true }

/-- `sanitize_session_story(session_id)` — the `/sanitize` route: rejects
non-story sessions and sessions without ai messages (400, document untouched);
otherwise joins all ai-message contents with blank lines, runs
`sanitize_story`, and replaces the whole message list with the single
sanitized ai message. -/
def sanitize_session_story (s : Session)
    (secondary : Except Unit (Option String)) : Session × SanitizeResult :=
  if s.type ≠ "story" then (s, SanitizeResult.notStoryErr)
  else
    let ai_msgs := aiMessages s.messages
    if ai_msgs.isEmpty then (s, SanitizeResult.noContentErr)
    else
      let original_story :=
        String.intercalate "\n\n" (ai_msgs.map (fun m => m.content))
      let sanitized_story :=
        sanitize_story original_story "sanitizer-balanced" secondary
      let s' := { s with messages := [sanitizedMsg sanitized_story] }
      (s', SanitizeResult.success original_story.length sanitized_story.length)

/-- A session-create request, after character resolution (the engine drops
request entries whose character file is missing; the claims quantify over the
resolved list, so resolution is abstracted as the identity).  `turns`/`parts`
carry the value of `data.get(..., default)`, i.e. the default 6/4 is already
applied for an absent key and `none` models an explicit JSON `null`. -/
structure CreateRequest where
  characters : List Participant
  type : String := "chat"
  chatMode : String := "single"
  scenario : String := ""
  setting : String := ""
  turns : Option Nat := some 6
  parts : Option Nat := some 4
deriving DecidableEq, Repr

/-- Result of `create_session`: the 400 validation rejection (nothing
persisted), or the created session as persisted when the route returns 201
(for story and multi-chat sessions a background auto-run is also scheduled,
modelled by applying the corresponding run to the persisted document). -/
inductive CreateResult where
  | validationErr
  | created (persisted : Session)
deriving DecidableEq, Repr

/-- The initial system message of a multi-character chat session. -/
def multiChatSystemMsg (names : List String) : Message :=
  { type := MsgType.system,
    content := "Multi-character conversation started between " ++
      String.intercalate ", " names }

/-- The session document `create_session` builds before any message is
added (the `session_data` dictionary literal of the route). -/
def baseSession (req : CreateRequest) : Session :=
  { type := req.type,
    chatMode := if req.type = "chat" then some req.chatMode else none,
    characters := req.characters,
    scenario := req.scenario,
    setting := req.setting,
    turns := if req.type = "chat" then req.turns else none,
    parts := if req.type = "story" then req.parts else none,
    status := "active",
    paused := false,
    paused_at := none,
    is_completed := false,
    messages := [] }

/-- `create_session()` — the `POST /api/sessions` route.  Rejects a request
without characters before any write; otherwise builds and persists the
session document.  Story sessions are persisted with empty messages (the
auto-run is backgrounded); multi-chat sessions get the initial system message;
single-chat sessions get the opening as a system message when the opening
call succeeds with non-empty text (`opening : Option String` abstracts
`generate_chat_opening`, which returns `None` on any failure). -/
def create_session (req : CreateRequest) (opening : Option String) :
    CreateResult :=
  if req.characters.isEmpty then CreateResult.validationErr
  else
    let base := baseSession req
    if req.type = "story" then CreateResult.created base
    else if req.chatMode = "multi" then
      CreateResult.created
        { base with messages :=
            [multiChatSystemMsg (req.characters.map (fun c => c.name))] }
    else
      match opening with
      | some o =>
        if o = "" then CreateResult.created base
        else
          CreateResult.created
            { base with messages := [{ type := MsgType.system, content := o }] }
      | none => CreateResult.created base

/-! ## Helper lemmas -/

/-- Appending a plain ai message increments the ai-message count. -/
lemma aiCount_append_ai (l : List Message) (c : String) :
    aiCount (l ++ [aiMsg c]) = aiCount l + 1 := by
  simp [aiCount, aiMessages, List.filter_append, aiMsg]

/-- Appending a speaker-tagged ai message increments the ai-message count. -/
lemma aiCount_append_tagged (l : List Message) (c : String) (n : Option String) :
    aiCount (l ++ [{ type := MsgType.ai, character := n, content := c,
                     sanitized := false }]) = aiCount l + 1 := by
  simp [aiCount, aiMessages, List.filter_append]

/-- Appending a user message leaves the ai-message count unchanged. -/
lemma aiCount_append_user (l : List Message) (c : String) :
    aiCount (l ++ [userMsg c]) = aiCount l := by
  simp [aiCount, aiMessages, List.filter_append, userMsg]

/-- Appending a user message and then an ai message increments the
ai-message count by one. -/
lemma aiCount_append_user_ai (l : List Message) (u c : String) :
    aiCount (l ++ [userMsg u, aiMsg c]) = aiCount l + 1 := by
  simp [aiCount, aiMessages, List.filter_append, userMsg, aiMsg]

/-- The degraded chat fallback string is non-empty. -/
lemma chatFallback_ne_empty : chatFallback ≠ "" := by decide

/-- The degraded story fallback string is non-empty. -/
lemma storyFallback_ne_empty : storyFallback ≠ "" := by decide

end SessionEngine

namespace SessionEngine

/-! ## C6 / C7 / C8 / C10 — sanitizer and pause/resume -/

/-- **C6** — For every sanitize request: on a story session with at least one
ai message the call leaves exactly one ai message, flagged `sanitized = true`,
and reports success; a non-story session or a session with zero ai messages is
rejected as an invalid request with the session unchanged. -/
theorem C6_sanitize_contract :
    (∀ (s : Session) (sec : Except Unit (Option String)),
       s.type = "story" → aiMessages s.messages ≠ [] →
       ∃ m, (sanitize_session_story s sec).1.messages = [m] ∧
         m.type = MsgType.ai ∧ m.sanitized = true ∧
         ∃ a b, (sanitize_session_story s sec).2 = SanitizeResult.success a b) ∧
    (∀ (s : Session) (sec : Except Unit (Option String)),
       s.type ≠ "story" →
       sanitize_session_story s sec = (s, SanitizeResult.notStoryErr)) ∧
    (∀ (s : Session) (sec : Except Unit (Option String)),
       s.type = "story" → aiMessages s.messages = [] →
       sanitize_session_story s sec = (s, SanitizeResult.noContentErr)) := by
  refine ⟨?_, ?_, ?_⟩
  · intro s sec hty hne
    simp only [sanitize_session_story, hty, ne_eq, not_true_eq_false, if_false,
      List.isEmpty_iff, hne, if_true]
    exact ⟨_, rfl, rfl, rfl, _, _, rfl⟩
  · intro s sec hty
    simp [sanitize_session_story, hty]
  · intro s sec hty hemp
    simp [sanitize_session_story, hty, hemp, List.isEmpty_iff]

/-- Witness for C6 at concrete sessions: a two-part story is collapsed to a
single sanitized ai message; a chat session and an ai-free story are both
rejected unchanged. -/
theorem C6_sanitize_contract_witness :
    (∃ m, (sanitize_session_story
        { type := "story", characters := [⟨"n", "Nova"⟩], parts := some 2,
          messages := [userMsg "u", aiMsg "p1", aiMsg "p2"] }
        (Except.error ())).1.messages = [m] ∧
      m.type = MsgType.ai ∧ m.sanitized = true ∧
      ∃ a b, (sanitize_session_story
        { type := "story", characters := [⟨"n", "Nova"⟩], parts := some 2,
          messages := [userMsg "u", aiMsg "p1", aiMsg "p2"] }
        (Except.error ())).2 = SanitizeResult.success a b) ∧
    sanitize_session_story
        { type := "chat", characters := [⟨"n", "Nova"⟩], turns := some 6 }
        (Except.error ()) =
      ({ type := "chat", characters := [⟨"n", "Nova"⟩], turns := some 6 },
       SanitizeResult.notStoryErr) ∧
    sanitize_session_story
        { type := "story", characters := [⟨"n", "Nova"⟩], parts := some 2,
          messages := [userMsg "u"] }
        (Except.error ()) =
      ({ type := "story", characters := [⟨"n", "Nova"⟩], parts := some 2,
         messages := [userMsg "u"] },
       SanitizeResult.noContentErr) := by
  refine ⟨C6_sanitize_contract.1 _ _ rfl (by decide),
    C6_sanitize_contract.2.1 _ _ (by decide),
    C6_sanitize_contract.2.2 _ _ rfl (by decide)⟩

/-- **C7** — For every input text and preset, a failing secondary generation
call makes the sanitize transform return the input text unchanged,
byte-for-byte (one attempt is made; there is no retry in the definition). -/
theorem C7_sanitize_failure_identity :
    ∀ (text preset : String) (e : Unit),
      sanitize_story text preset (Except.error e) = text := by
  intro text preset e
  rfl

/-- **C8** — Pause only sets the pause markers (`paused`, `paused_at`) and
leaves every other field, including the message list, unchanged; resume only
clears the pause markers; a synchronous generate call on a paused session
appends nothing and returns the paused rejection. -/
theorem C8_pause_resume_frame :
    (∀ (s : Session) (now : Nat),
       (pause_session s now).messages = s.messages ∧
       (pause_session s now).status = s.status ∧
       (pause_session s now).type = s.type ∧
       (pause_session s now).chatMode = s.chatMode ∧
       (pause_session s now).characters = s.characters ∧
       (pause_session s now).scenario = s.scenario ∧
       (pause_session s now).setting = s.setting ∧
       (pause_session s now).turns = s.turns ∧
       (pause_session s now).parts = s.parts ∧
       (pause_session s now).is_completed = s.is_completed ∧
       (pause_session s now).paused = true ∧
       (pause_session s now).paused_at = some now) ∧
    (∀ (s : Session),
       (resume_session s).messages = s.messages ∧
       (resume_session s).status = s.status ∧
       (resume_session s).type = s.type ∧
       (resume_session s).chatMode = s.chatMode ∧
       (resume_session s).characters = s.characters ∧
       (resume_session s).scenario = s.scenario ∧
       (resume_session s).setting = s.setting ∧
       (resume_session s).turns = s.turns ∧
       (resume_session s).parts = s.parts ∧
       (resume_session s).is_completed = s.is_completed ∧
       (resume_session s).paused = false ∧
       (resume_session s).paused_at = none) ∧
    (∀ (s : Session) (input : String) (provider : Nat → Except Unit String),
       s.paused = true →
       generate_session_content s input provider = (s, GenResponse.pausedResp)) := by
  refine ⟨?_, ?_, ?_⟩
  · intro s now
    simp [pause_session]
  · intro s
    simp [resume_session]
  · intro s input provider hp
    simp [generate_session_content, hp]

/-- Witness for C8 at a concrete paused chat session. -/
theorem C8_pause_resume_frame_witness :
    generate_session_content
        { type := "chat", characters := [⟨"n", "Nova"⟩], turns := some 6,
          paused := true }
        "hi" (fun _ => Except.ok "yo") =
      ({ type := "chat", characters := [⟨"n", "Nova"⟩], turns := some 6,
         paused := true }, GenResponse.pausedResp) :=
  C8_pause_resume_frame.2.2 _ _ _ rfl

/-- **C10** — On a story session with at least one ai message, the sanitize
route replaces the whole message list (user and system messages included) with
the single sanitized ai message and reports success even when the provider
call failed; in that case the surviving message's content is the prior
ai-message contents joined by blank lines. -/
theorem C10_sanitize_failure_still_mutates :
    ∀ (s : Session) (e : Unit), s.type = "story" →
      aiMessages s.messages ≠ [] →
      (sanitize_session_story s (Except.error e)).1.messages =
        [sanitizedMsg (String.intercalate "\n\n"
          ((aiMessages s.messages).map (fun m => m.content)))] ∧
      (sanitize_session_story s (Except.error e)).2 =
        SanitizeResult.success
          (String.intercalate "\n\n"
            ((aiMessages s.messages).map (fun m => m.content))).length
          (String.intercalate "\n\n"
            ((aiMessages s.messages).map (fun m => m.content))).length := by
  intro s e hty hne
  simp only [sanitize_session_story, hty, ne_eq, not_true_eq_false, if_false,
    List.isEmpty_iff, hne, if_true, sanitize_story]
  constructor <;> trivial

/-- Witness for C10: a story with a user message and two ai parts, failing
provider — the persisted document keeps exactly the blank-line concatenation
as its single (sanitized) message, and success is reported. -/
theorem C10_sanitize_failure_still_mutates_witness :
    (sanitize_session_story
        { type := "story", characters := [⟨"n", "Nova"⟩], parts := some 2,
          messages := [userMsg "keep me", aiMsg "p1", aiMsg "p2"] }
        (Except.error ())).1.messages = [sanitizedMsg "p1\n\np2"] ∧
    (sanitize_session_story
        { type := "story", characters := [⟨"n", "Nova"⟩], parts := some 2,
          messages := [userMsg "keep me", aiMsg "p1", aiMsg "p2"] }
        (Except.error ())).2 = SanitizeResult.success 6 6 := by
  have h := C10_sanitize_failure_still_mutates
    { type := "story", characters := [⟨"n", "Nova"⟩], parts := some 2,
      messages := [userMsg "keep me", aiMsg "p1", aiMsg "p2"] }
    () rfl (by decide)
  exact ⟨by rw [h.1]; decide, by rw [h.2]; decide⟩

/-! ## C5 — speaker rotation -/

/-- A concrete session exhibiting the story-mode rotation: two participants,
one user message followed by one ai message. -/
def rotationExample : Session :=
  { type := "story", characters := [⟨"a", "A"⟩, ⟨"b", "B"⟩],
    parts := some 4, messages := [userMsg "hi", aiMsg "yo"] }

/-- **C5 counterexample** — with participants `[A, B]` and messages
`[user, ai]`, the ai-message count is `k = 1`, so the claim requires speaker
`participants[1] = B` in story mode as well; story mode actually selects by
total message count (`2 mod 2 = 0`), i.e. `A`. -/
theorem C5_rotation_counterexample :
    aiCount rotationExample.messages = 1 ∧
    rotationExample.characters.length = 2 ∧
    rotationExample.characters[1 % 2]? = some ⟨"b", "B"⟩ ∧
    story_selected_speaker rotationExample = some ⟨"a", "A"⟩ ∧
    story_selected_speaker rotationExample ≠
      rotationExample.characters[aiCount rotationExample.messages %
        rotationExample.characters.length]? := by
  refine ⟨rfl, rfl, rfl, rfl, ?_⟩
  decide

/-- **C5 amended** — for every session with at least one participant, chat
mode selects `participants[k mod N]` with `k` the ai-message count, while
story mode selects `participants[k' mod N]` with `k'` the **total** message
count. -/
theorem C5_rotation_amended :
    ∀ (s : Session) (h : s.characters ≠ []),
      chat_selected_speaker s =
        some (s.characters.get
          ⟨aiCount s.messages % s.characters.length,
           Nat.mod_lt _ (List.length_pos.mpr h)⟩) ∧
      story_selected_speaker s =
        some (s.characters.get
          ⟨s.messages.length % s.characters.length,
           Nat.mod_lt _ (List.length_pos.mpr h)⟩) := by
  intro s h
  constructor
  · rw [chat_selected_speaker,
      List.getElem?_eq_getElem (Nat.mod_lt _ (List.length_pos.mpr h))]
    simp
  · rw [story_selected_speaker,
      List.getElem?_eq_getElem (Nat.mod_lt _ (List.length_pos.mpr h))]
    simp

/-- Witness for the amended C5 at the concrete example session. -/
theorem C5_rotation_amended_witness :
    chat_selected_speaker rotationExample = some ⟨"b", "B"⟩ ∧
    story_selected_speaker rotationExample = some ⟨"a", "A"⟩ := by
  have h := C5_rotation_amended rotationExample (by decide)
  exact ⟨by rw [h.1]; rfl, by rw [h.2]; rfl⟩

/-! ## C9 — create-session validation -/

/-- A multi-character chat create request with a single participant. -/
def soloMultiRequest : CreateRequest :=
  { characters := [⟨"a", "A"⟩], type := "chat", chatMode := "multi",
    turns := some 6, parts := some 4 }

/-- The session document `create_session` persists for `soloMultiRequest`. -/
def soloMultiPersisted : Session :=
  { type := "chat", chatMode := some "multi", characters := [⟨"a", "A"⟩],
    turns := some 6, parts := none, status := "active",
    messages := [multiChatSystemMsg ["A"]] }

/-- **C9 counterexample** — a multi-character chat request with one
participant is *not* rejected: `create_session` persists a session document
and returns the created response. -/
theorem C9_validation_counterexample :
    create_session soloMultiRequest none =
      CreateResult.created soloMultiPersisted ∧
    create_session soloMultiRequest none ≠ CreateResult.validationErr := by
  constructor
  · rfl
  · decide

/-- **C9 amended** — a create request with zero participants is rejected as a
validation failure before any state mutation; a multi-character chat request
with one participant is *not* rejected: the session document is persisted and
the created response returned, and the background conversation generator then
returns immediately (bare `None`) without attempting any generation, leaving
the persisted document unchanged. -/
theorem C9_validation_amended :
    (∀ (req : CreateRequest) (opening : Option String),
       req.characters = [] →
       create_session req opening = CreateResult.validationErr) ∧
    (∀ (req : CreateRequest) (opening : Option String)
       (provider : Nat → Except Unit String),
       req.type = "chat" → req.chatMode = "multi" →
       req.characters.length = 1 →
       ∃ s, create_session req opening = CreateResult.created s ∧
         generate_multi_character_conversation provider s =
           (s, MultiOutcome.noneRet)) := by
  constructor
  · intro req opening h
    simp [create_session, h]
  · intro req opening provider hty hmode hlen
    have hne : req.characters.isEmpty = false := by
      cases hc : req.characters with
      | nil => rw [hc] at hlen; simp at hlen
      | cons a l => simp [hc]
    refine ⟨{ baseSession req with messages :=
        [multiChatSystemMsg (req.characters.map (fun c => c.name))] }, ?_, ?_⟩
    · have hsty : ¬ req.type = "story" := by rw [hty]; decide
      simp only [create_session, hne, Bool.false_eq_true, if_false, hsty,
        hmode, if_true]
    · have hlt : ({ baseSession req with messages :=
          [multiChatSystemMsg (req.characters.map (fun c => c.name))]
          } : Session).characters.length < 2 := by
        simp [baseSession, hlen]
      simp [generate_multi_character_conversation, hlt]

/-- Witness for the amended C9: the empty request is rejected; the concrete
one-participant multi request is persisted and its background run generates
nothing. -/
theorem C9_validation_amended_witness :
    create_session { characters := [], type := "chat", chatMode := "multi" }
      none = CreateResult.validationErr ∧
    ∃ s, create_session soloMultiRequest none = CreateResult.created s ∧
      generate_multi_character_conversation (fun _ => Except.ok "Hi") s =
        (s, MultiOutcome.noneRet) := by
  exact ⟨C9_validation_amended.1 _ none rfl,
    C9_validation_amended.2 soloMultiRequest none _ rfl rfl rfl⟩

/-! ## C1 — bounded-limit completion -/

/-- **C1** — for a bounded limit `L` (`L` not null, `L ≠ 999`):
(a) a generate call on a session whose ai-message count is already `≥ L`
appends nothing, leaves the persisted document unchanged and reports
`completed = true`; (b) a generate call that brings the ai-message count to
exactly `L` (one turn appended from a successful non-blank provider result,
with non-empty steering input for stories so the call stays synchronous)
reports `completed = true` and persists `status = 'completed'` and
`is_completed = true`. -/
theorem C1_bounded_limit_completion :
    (∀ (s : Session) (input : String) (provider : Nat → Except Unit String)
       (L : Nat),
       s.paused = false →
       ((s.type = "chat" ∧ s.turns = some L) ∨
        (s.type = "story" ∧ s.turns = none ∧ s.parts = some L)) →
       L ≠ 999 → L ≤ aiCount s.messages →
       generate_session_content s input provider =
         (s, GenResponse.sessionCompleted (aiCount s.messages) L)) ∧
    (∀ (s : Session) (input : String) (provider : Nat → Except Unit String)
       (L : Nat) (r : String),
       s.paused = false →
       ((s.type = "chat" ∧ s.turns = some L) ∨
        (s.type = "story" ∧ s.turns = none ∧ s.parts = some L ∧ input ≠ "")) →
       L ≠ 999 → aiCount s.messages + 1 = L →
       provider 0 = Except.ok r → pyStrip (pyStrip r) ≠ "" →
       aiCount (generate_session_content s input provider).1.messages = L ∧
       (generate_session_content s input provider).1.status = "completed" ∧
       (generate_session_content s input provider).1.is_completed = true ∧
       ((generate_session_content s input provider).2).completedField =
         some true) := by
  constructor
  · rintro s input provider L hp (⟨hty, ht⟩ | ⟨hty, ht, hparts⟩) hL hcur
    · have h999 : (s.turns == some 999) = false := by simp [ht, hL]
      simp [generate_session_content, hp, hty, ht, h999, hcur, hL]
    · have h999 : (s.turns == some 999) = false := by simp [ht]
      simp [generate_session_content, hp, hty, ht, hparts, h999, hcur, hL]
  · rintro s input provider L r hp
      (⟨hty, ht⟩ | ⟨hty, ht, hparts, hin⟩) hL hcur hprov hr
    · have h999 : (s.turns == some 999) = false := by simp [ht, hL]
      have hnle : ¬ (L ≤ aiCount s.messages) := by omega
      have hresp : generate_chat_response s input (provider 0) ≠ "" := by
        rw [generate_chat_response]
        cases hs : chat_selected_speaker s with
        | none => exact chatFallback_ne_empty
        | some c =>
          rw [hprov]
          simp only [chat_call]
          exact hr
      have hcount :
          aiCount ((if input = "" then s.messages
              else s.messages ++ [userMsg input]) ++
            [aiMsg (generate_chat_response s input (provider 0))]) = L := by
        rw [aiCount_append_ai]
        by_cases hi : input = "" <;> simp [hi, aiCount_append_user, hcur]
      have hcomp : L ≤ aiCount ((if input = "" then s.messages
            else s.messages ++ [userMsg input]) ++
          [aiMsg (generate_chat_response s input (provider 0))]) := by
        rw [hcount]
      simp [generate_session_content, hp, hty, ht, h999, hL, hnle, hresp,
        hcount, hcomp, GenResponse.completedField]
    · have h999 : (s.turns == some 999) = false := by simp [ht]
      have hnle : ¬ (L ≤ aiCount s.messages) := by omega
      have hresp : generate_story_continuation s input (provider 0) ≠ "" := by
        rw [generate_story_continuation]
        cases hs : story_selected_speaker s with
        | none => exact storyFallback_ne_empty
        | some c =>
          rw [hprov]
          simp only [chat_call]
          exact hr
      have hcount : aiCount (s.messages ++ [userMsg input,
          aiMsg (generate_story_continuation s input (provider 0))]) = L := by
        rw [aiCount_append_user_ai]
        exact hcur
      have hcomp : L ≤ aiCount (s.messages ++ [userMsg input,
          aiMsg (generate_story_continuation s input (provider 0))]) := by
        rw [hcount]
      simp [generate_session_content, hp, hty, ht, hparts, h999, hL, hnle,
        hin, hresp, hcount, hcomp, GenResponse.completedField]

/-- Witness for C1: a chat session with `turns = 2` already holding two ai
messages is returned unchanged with `completed = true`; the same session with
one ai message reaches the limit on the next call and is persisted as
completed. -/
theorem C1_bounded_limit_completion_witness :
    generate_session_content
        { type := "chat", chatMode := some "single",
          characters := [⟨"a", "A"⟩, ⟨"b", "B"⟩], turns := some 2,
          messages := [aiMsg "x", aiMsg "y"] }
        "hi" (fun _ => Except.ok "part") =
      ({ type := "chat", chatMode := some "single",
         characters := [⟨"a", "A"⟩, ⟨"b", "B"⟩], turns := some 2,
         messages := [aiMsg "x", aiMsg "y"] },
       GenResponse.sessionCompleted 2 2) ∧
    (aiCount (generate_session_content
        { type := "chat", chatMode := some "single",
          characters := [⟨"a", "A"⟩, ⟨"b", "B"⟩], turns := some 2,
          messages := [aiMsg "x"] }
        "hi" (fun _ => Except.ok "part")).1.messages = 2 ∧
     (generate_session_content
        { type := "chat", chatMode := some "single",
          characters := [⟨"a", "A"⟩, ⟨"b", "B"⟩], turns := some 2,
          messages := [aiMsg "x"] }
        "hi" (fun _ => Except.ok "part")).1.status = "completed" ∧
     (generate_session_content
        { type := "chat", chatMode := some "single",
          characters := [⟨"a", "A"⟩, ⟨"b", "B"⟩], turns := some 2,
          messages := [aiMsg "x"] }
        "hi" (fun _ => Except.ok "part")).1.is_completed = true ∧
     ((generate_session_content
        { type := "chat", chatMode := some "single",
          characters := [⟨"a", "A"⟩, ⟨"b", "B"⟩], turns := some 2,
          messages := [aiMsg "x"] }
        "hi" (fun _ => Except.ok "part")).2).completedField = some true) := by
  refine ⟨C1_bounded_limit_completion.1 _ "hi" _ 2 rfl
      (Or.inl ⟨rfl, rfl⟩) (by decide) (by decide),
    C1_bounded_limit_completion.2 _ "hi" _ 2 "part" rfl
      (Or.inl ⟨rfl, rfl⟩) (by decide) (by decide) rfl (by decide)⟩

/-! ## C2 — unlimited sentinel -/

/-- A story session with the unlimited sentinel `parts = 999` and one prior
ai message. -/
def sentinelStory : Session :=
  { type := "story", characters := [⟨"n", "Nova"⟩], turns := none,
    parts := some 999, messages := [aiMsg "old part"] }

/-- **C2 counterexample** — a generate call on a story session with
`parts = 999` and empty steering input does *not* report `completed = false`:
it delegates to `generate_complete_story`, whose unlimited branch returns the
bare `True` the route hands back unmodified (no `completed` field at all, not
a valid response body). -/
theorem C2_unlimited_counterexample :
    (generate_session_content sentinelStory ""
        (fun _ => Except.ok "Hello")).2 = GenResponse.invalidTrue ∧
    ((generate_session_content sentinelStory ""
        (fun _ => Except.ok "Hello")).2).completedField ≠ some false := by
  constructor <;> decide

/-- **C2 amended** — for chat sessions with `turns = 999`, every generate
call reports `completed = false` with progress maximum null and never touches
`status`/`is_completed`; for story sessions with `parts = 999` or null, the
same holds for calls with non-empty steering input; a story call with empty
input instead delegates to the auto-run and returns no `completed` field
(bare `True` for `parts = 999`, an error response for null parts), with the
status left `'active'` and `is_completed` untouched — so completion is never
signaled automatically in any sentinel case. -/
theorem C2_unlimited_never_completes :
    (∀ (s : Session) (input : String) (provider : Nat → Except Unit String),
       s.paused = false → s.type = "chat" → s.turns = some 999 →
       ((generate_session_content s input provider).2).completedField =
         some false ∧
       ((generate_session_content s input provider).2).progressMaxField =
         some none ∧
       (generate_session_content s input provider).1.status = s.status ∧
       (generate_session_content s input provider).1.is_completed =
         s.is_completed) ∧
    (∀ (s : Session) (input : String) (provider : Nat → Except Unit String),
       s.paused = false → s.type = "story" → s.turns = none →
       (s.parts = some 999 ∨ s.parts = none) → input ≠ "" →
       ((generate_session_content s input provider).2).completedField =
         some false ∧
       ((generate_session_content s input provider).2).progressMaxField =
         some none ∧
       (generate_session_content s input provider).1.status = s.status ∧
       (generate_session_content s input provider).1.is_completed =
         s.is_completed) ∧
    (∀ (s : Session) (provider : Nat → Except Unit String),
       s.paused = false → s.type = "story" → s.turns = none →
       s.status = "active" → (s.parts = some 999 ∨ s.parts = none) →
       ((generate_session_content s "" provider).2).completedField = none ∧
       (generate_session_content s "" provider).1.status = "active" ∧
       (generate_session_content s "" provider).1.is_completed =
         s.is_completed) := by
  refine ⟨?_, ?_, ?_⟩
  · intro s input provider hp hty ht
    by_cases hresp : generate_chat_response s input (provider 0) = "" <;>
      simp [generate_session_content, hp, hty, ht, hresp,
        GenResponse.completedField, GenResponse.progressMaxField]
  · intro s input provider hp hty ht hparts hin
    rcases hparts with hparts | hparts <;>
    by_cases hresp : generate_story_continuation s input (provider 0) = "" <;>
      simp [generate_session_content, hp, hty, ht, hparts, hin, hresp,
        GenResponse.completedField, GenResponse.progressMaxField]
  · intro s provider hp hty ht hstat hparts
    rcases hparts with hparts | hparts <;>
    rcases hO : generate_story_opening s (provider 0) with _ | o <;>
      simp [generate_session_content, generate_complete_story,
        routeStoryResult, hp, hty, ht, hparts, hO, hstat,
        GenResponse.completedField]
    · by_cases ho : o = "" <;> simp [ho, hstat]
    · by_cases ho : o = "" <;> simp [ho, hstat]

/-- Witness for the amended C2 at concrete sessions: a quick chat with five
prior ai messages, the sentinel story with steering input, and the sentinel
story with empty input. -/
theorem C2_unlimited_never_completes_witness :
    (((generate_session_content
        { type := "chat", chatMode := some "single",
          characters := [⟨"n", "Nova"⟩], turns := some 999,
          messages := [aiMsg "a", aiMsg "b", aiMsg "c", aiMsg "d", aiMsg "e"] }
        "hi" (fun _ => Except.ok "yo")).2).completedField = some false ∧
     ((generate_session_content
        { type := "chat", chatMode := some "single",
          characters := [⟨"n", "Nova"⟩], turns := some 999,
          messages := [aiMsg "a", aiMsg "b", aiMsg "c", aiMsg "d", aiMsg "e"] }
        "hi" (fun _ => Except.ok "yo")).2).progressMaxField = some none ∧
     (generate_session_content
        { type := "chat", chatMode := some "single",
          characters := [⟨"n", "Nova"⟩], turns := some 999,
          messages := [aiMsg "a", aiMsg "b", aiMsg "c", aiMsg "d", aiMsg "e"] }
        "hi" (fun _ => Except.ok "yo")).1.status =
       ({ type := "chat", chatMode := some "single",
          characters := [⟨"n", "Nova"⟩], turns := some 999,
          messages := [aiMsg "a", aiMsg "b", aiMsg "c", aiMsg "d", aiMsg "e"] }
          : Session).status ∧
     (generate_session_content
        { type := "chat", chatMode := some "single",
          characters := [⟨"n", "Nova"⟩], turns := some 999,
          messages := [aiMsg "a", aiMsg "b", aiMsg "c", aiMsg "d", aiMsg "e"] }
        "hi" (fun _ => Except.ok "yo")).1.is_completed =
       ({ type := "chat", chatMode := some "single",
          characters := [⟨"n", "Nova"⟩], turns := some 999,
          messages := [aiMsg "a", aiMsg "b", aiMsg "c", aiMsg "d", aiMsg "e"] }
          : Session).is_completed) ∧
    (((generate_session_content sentinelStory "go"
        (fun _ => Except.ok "yo")).2).completedField = some false) ∧
    (((generate_session_content sentinelStory ""
        (fun _ => Except.ok "yo")).2).completedField = none) := by
  refine ⟨C2_unlimited_never_completes.1 _ "hi" _ rfl rfl rfl, ?_, ?_⟩
  · exact (C2_unlimited_never_completes.2.1 sentinelStory "go" _
      rfl rfl rfl (Or.inl rfl) (by decide)).1
  · exact (C2_unlimited_never_completes.2.2 sentinelStory _
      rfl rfl rfl rfl (Or.inl rfl)).1

/-! ## Loop lemmas for the auto-runs -/

/-- The provider call is non-degenerate for the story loop: either it fails
(the loop then appends the non-empty fallback) or its doubly-stripped result
is non-blank.  Guarantees the loop's `if response:` test passes. -/
def storyNonDegB (p : Except Unit String) : Bool :=
  match p with
  | .ok r => !(pyStrip (pyStrip r) == "")
  | .error _ => true

/-- Under a non-degenerate provider call the story continuation is never the
empty string (a failure yields the non-empty fallback). -/
lemma story_response_ne_empty (s : Session) (p : Except Unit String)
    (h : storyNonDegB p = true) :
    generate_story_continuation s "" p ≠ "" := by
  rw [generate_story_continuation]
  cases hs : story_selected_speaker s with
  | none => exact storyFallback_ne_empty
  | some c =>
    cases p with
    | error e => exact storyFallback_ne_empty
    | ok r =>
      simp only [chat_call]
      simpa [storyNonDegB] using h

/-- The story loop only appends messages: `status`, `paused`, `is_completed`
and `characters` pass through untouched — in particular the loop never reads
or clears the pause flag. -/
lemma story_loop_fields (provider : Nat → Except Unit String) :
    ∀ (fuel pn : Nat) (s : Session),
      (story_loop provider fuel pn s).status = s.status ∧
      (story_loop provider fuel pn s).paused = s.paused ∧
      (story_loop provider fuel pn s).is_completed = s.is_completed ∧
      (story_loop provider fuel pn s).characters = s.characters := by
  intro fuel
  induction fuel with
  | zero => intro pn s; simp [story_loop]
  | succ n ih =>
    intro pn s
    rw [story_loop]
    by_cases h : generate_story_continuation s "" (provider pn) = "" <;>
      simp only [h, if_true, if_false, ite_true, ite_false] <;>
      exact ih (pn + 1) _

/-- With every provider call non-degenerate, each story-loop iteration
appends exactly one ai message. -/
lemma story_loop_aiCount (provider : Nat → Except Unit String)
    (hnd : ∀ k, storyNonDegB (provider k) = true) :
    ∀ (fuel pn : Nat) (s : Session),
      aiCount (story_loop provider fuel pn s).messages =
        aiCount s.messages + fuel := by
  intro fuel
  induction fuel with
  | zero => intro pn s; simp [story_loop]
  | succ n ih =>
    intro pn s
    rw [story_loop]
    have hne := story_response_ne_empty s (provider pn) (hnd pn)
    simp only [hne, if_false, ite_false]
    rw [ih (pn + 1)]
    rw [aiCount_append_ai]
    omega

/-- If the provider succeeds with non-blank output for the first `t` turns
and fails at turn `t` (with `t` inside the turn budget), the multi-character
loop stops with `False`, leaves `status`/`is_completed` untouched, and the
message list is the input list extended by exactly the `t` successful
messages (the original prefix is preserved — the last good checkpoint). -/
lemma multi_loop_abort (provider : Nat → Except Unit String) :
    ∀ (t remaining turn : Nat) (s : Session),
      2 ≤ s.characters.length →
      t < remaining →
      (∀ j, j < t → okNonemptyB (provider (turn + j)) = true) →
      provider (turn + t) = Except.error () →
      (multi_loop provider remaining turn s).2 = false ∧
      (multi_loop provider remaining turn s).1.status = s.status ∧
      (multi_loop provider remaining turn s).1.is_completed = s.is_completed ∧
      (multi_loop provider remaining turn s).1.messages.length =
        s.messages.length + t ∧
      (multi_loop provider remaining turn s).1.messages.take
        s.messages.length = s.messages := by
  intro t
  induction t with
  | zero =>
    intro remaining turn s hchars hlt hok herr
    match remaining, hlt with
    | r + 1, _ =>
      have hmod : turn % s.characters.length < s.characters.length :=
        Nat.mod_lt turn (by omega)
      have hc := List.getElem?_eq_getElem hmod
      rw [Nat.add_zero] at herr
      simp only [multi_loop, hc, herr, chat_call]
      simp
  | succ k ih =>
    intro remaining turn s hchars hlt hok herr
    match remaining, hlt with
    | r + 1, hlt =>
      have hmod : turn % s.characters.length < s.characters.length :=
        Nat.mod_lt turn (by omega)
      have hc := List.getElem?_eq_getElem hmod
      have h0 : okNonemptyB (provider turn) = true := by
        have := hok 0 (by omega)
        rwa [Nat.add_zero] at this
      cases hp : provider turn with
      | error e => rw [hp] at h0; simp [okNonemptyB] at h0
      | ok rr =>
        have hne : ¬ (pyStrip rr = "") := by
          rw [hp] at h0
          simpa [okNonemptyB] using h0
        have hok' : ∀ j, j < k →
            okNonemptyB (provider (turn + 1 + j)) = true := by
          intro j hj
          have h := hok (j + 1) (by omega)
          have e : turn + (j + 1) = turn + 1 + j := by omega
          rwa [e] at h
        have herr' : provider (turn + 1 + k) = Except.error () := by
          have e : turn + (k + 1) = turn + 1 + k := by omega
          rwa [e] at herr
        simp only [multi_loop, hc, hp, chat_call, hne, if_false, ite_false]
        have ih' := ih r (turn + 1)
          { s with messages := s.messages ++
              [{ type := MsgType.ai,
                 character := some (s.characters[turn % s.characters.length]).name,
                 content := pyStrip (pyStrip rr), sanitized := false }] }
          (by simpa using hchars) (by omega) hok' herr'
        refine ⟨ih'.1, ih'.2.1, ih'.2.2.1, ?_, ?_⟩
        · rw [ih'.2.2.2.1]
          simp
          omega
        · have htake := ih'.2.2.2.2
          simp only [List.length_append, List.length_cons,
            List.length_nil] at htake
          have h1 : (multi_loop provider r (turn + 1)
              { s with messages := s.messages ++
                [{ type := MsgType.ai,
                   character := some (s.characters[turn % s.characters.length]).name,
                   content := pyStrip (pyStrip rr), sanitized := false }] }).1.messages.take
              s.messages.length =
            ((multi_loop provider r (turn + 1)
              { s with messages := s.messages ++
                [{ type := MsgType.ai,
                   character := some (s.characters[turn % s.characters.length]).name,
                   content := pyStrip (pyStrip rr), sanitized := false }] }).1.messages.take
              (s.messages.length + 1)).take s.messages.length := by
            rw [List.take_take]
            congr 1
            omega
          rw [h1, htake]
          exact List.take_left s.messages _

/-! ## C3 — pause polling in auto-runs -/

/-- A paused bounded story session (pause flag persisted, no messages yet). -/
def pausedStoryEx : Session :=
  { type := "story", characters := [⟨"n", "Nova"⟩], turns := none,
    parts := some 2, status := "active", paused := true, messages := [] }

/-- A paused multi-character chat session with two participants. -/
def pausedMultiEx : Session :=
  { type := "chat", chatMode := some "multi",
    characters := [⟨"a", "A"⟩, ⟨"b", "B"⟩], turns := some 2, paused := true }

/-- **C3 counterexample** — both auto-run loops generate and append ai
messages although `paused = true` holds in the persisted document throughout
(the bounded story run appends two, the multi-character run appends two), so
the claimed per-turn pause polling does not exist. -/
theorem C3_pause_polling_counterexample :
    pausedStoryEx.paused = true ∧
    (generate_complete_story (fun _ => Except.ok "Hello")
        pausedStoryEx).1.paused = true ∧
    aiCount (generate_complete_story (fun _ => Except.ok "Hello")
        pausedStoryEx).1.messages = 2 ∧
    pausedMultiEx.paused = true ∧
    (generate_multi_character_conversation (fun _ => Except.ok "Hello")
        pausedMultiEx).1.paused = true ∧
    aiCount (generate_multi_character_conversation (fun _ => Except.ok "Hello")
        pausedMultiEx).1.messages = 2 := by
  refine ⟨rfl, ?_, ?_, rfl, ?_, ?_⟩ <;> decide

/-- **C3 amended** — the auto-run loops do not poll the persisted pause flag:
a bounded story auto-run started while `paused = true` holds in the persisted
document still generates and appends all its ai messages, with the pause flag
left set and untouched; only the synchronous generate route refuses to
generate while paused. -/
theorem C3_pause_not_polled_amended :
    (∀ (s : Session) (provider : Nat → Except Unit String) (mp : Nat)
       (r : String),
       s.paused = true → s.parts = some mp → mp ≠ 999 → 1 ≤ mp →
       s.characters ≠ [] → provider 0 = Except.ok r →
       (∀ k, storyNonDegB (provider k) = true) →
       (generate_complete_story provider s).1.paused = true ∧
       aiCount (generate_complete_story provider s).1.messages = mp) ∧
    (∀ (s : Session) (input : String) (provider : Nat → Except Unit String),
       s.paused = true →
       generate_session_content s input provider =
         (s, GenResponse.pausedResp)) := by
  constructor
  · intro s provider mp r hpau hparts hL hmp hchars hprov hnd
    have hee : s.characters.isEmpty = false := by
      simp [List.isEmpty_iff, hchars]
    have hop : generate_story_opening s (provider 0) =
        some (pyStrip (pyStrip r)) := by
      simp [generate_story_opening, hprov, chat_call, hee]
    have hne : ¬ (pyStrip (pyStrip r) = "") := by
      have := hnd 0
      rw [hprov] at this
      simpa [storyNonDegB] using this
    simp only [generate_complete_story, hparts, hL, if_false, ite_false,
      hop, hne]
    refine ⟨?_, ?_⟩
    · exact ((story_loop_fields provider (mp - 1) 1 _).2.1).trans hpau
    · rw [story_loop_aiCount provider hnd (mp - 1) 1]
      simp [aiCount, aiMessages, aiMsg]
      omega
  · intro s input provider hp
    simp [generate_session_content, hp]

/-- Witness for the amended C3: the paused two-part story run keeps
`paused = true` and ends with two ai messages; the synchronous route on the
same paused session refuses. -/
theorem C3_pause_not_polled_amended_witness :
    ((generate_complete_story (fun _ => Except.ok "Hello")
        pausedStoryEx).1.paused = true ∧
     aiCount (generate_complete_story (fun _ => Except.ok "Hello")
        pausedStoryEx).1.messages = 2) ∧
    generate_session_content pausedStoryEx "go"
        (fun _ => Except.ok "Hello") =
      (pausedStoryEx, GenResponse.pausedResp) := by
  exact ⟨C3_pause_not_polled_amended.1 pausedStoryEx _ 2 "Hello" rfl rfl
      (by decide) (by decide) (by decide) rfl (fun k => by decide),
    C3_pause_not_polled_amended.2 pausedStoryEx "go" _ rfl⟩

/-! ## C4 — provider failure in auto-runs -/

/-- A provider whose every call fails. -/
def errProvider : Nat → Except Unit String := fun _ => Except.error ()

/-- A fresh bounded story session (two parts, one participant). -/
def c4StoryEx : Session :=
  { type := "story", characters := [⟨"n", "Nova"⟩], turns := none,
    parts := some 2, messages := [] }

/-- **C4 counterexample** — running the bounded story auto-run with a provider
that always fails still marks the session completed, and the message produced
by the failed continuation call (the degraded fallback string) *is* appended
to the persisted document. -/
theorem C4_provider_failure_counterexample :
    (generate_complete_story errProvider c4StoryEx).1.status = "completed" ∧
    (generate_complete_story errProvider c4StoryEx).1.is_completed = true ∧
    (generate_complete_story errProvider c4StoryEx).1.messages =
      [aiMsg storyFallback] := by
  refine ⟨?_, ?_, ?_⟩ <;> decide

/-- **C4 amended** — for a multi-character chat auto-run the claim holds: a
provider failure at turn `t` aborts the loop (`False` return), leaves the
session at the last good checkpoint (the prior messages preserved, exactly
the `t` successful messages appended, nothing from the failed call) and does
not mark the session completed.  For a bounded story auto-run it does not:
`generate_story_continuation` converts the failure into a non-empty fallback
message that is appended, the loop continues and the session is marked
completed. -/
theorem C4_provider_failure_amended :
    (∀ (s : Session) (provider : Nat → Except Unit String) (T t : Nat),
       2 ≤ s.characters.length → s.turns = some T → t < T →
       (∀ j, j < t → okNonemptyB (provider j) = true) →
       provider t = Except.error () →
       (generate_multi_character_conversation provider s).2 =
         MultiOutcome.falseRet ∧
       (generate_multi_character_conversation provider s).1.status =
         s.status ∧
       (generate_multi_character_conversation provider s).1.is_completed =
         s.is_completed ∧
       (generate_multi_character_conversation provider s).1.messages.length =
         s.messages.length + t ∧
       (generate_multi_character_conversation provider s).1.messages.take
         s.messages.length = s.messages) ∧
    (∀ (s : Session) (mp : Nat),
       s.parts = some mp → mp ≠ 999 →
       (generate_complete_story errProvider s).1.status = "completed" ∧
       (generate_complete_story errProvider s).1.is_completed = true ∧
       aiCount (generate_complete_story errProvider s).1.messages =
         aiCount s.messages + (mp - 1)) := by
  constructor
  · intro s provider T t hchars ht hlt hok herr
    have hok' : ∀ j, j < t → okNonemptyB (provider (0 + j)) = true := by
      intro j hj
      rw [Nat.zero_add]
      exact hok j hj
    have herr' : provider (0 + t) = Except.error () := by
      rw [Nat.zero_add]
      exact herr
    have hab := multi_loop_abort provider t T 0 s hchars hlt hok' herr'
    have hnlt : ¬ (s.characters.length < 2) := by omega
    cases hml : multi_loop provider T 0 s with
    | mk s' b =>
      rw [hml] at hab
      obtain ⟨hb, hst, hic, hlen, htake⟩ := hab
      cases b with
      | true => simp at hb
      | false =>
        simp only [generate_multi_character_conversation, hnlt, if_false,
          ite_false, ht, Option.getD_some, hml]
        exact ⟨trivial, hst, hic, hlen, htake⟩
  · intro s mp hparts hL
    have hop : generate_story_opening s (errProvider 0) = none := by
      cases h : s.characters.isEmpty <;>
        simp [generate_story_opening, chat_call, h, errProvider]
    have hnd : ∀ k, storyNonDegB (errProvider k) = true := by
      intro k
      rfl
    simp only [generate_complete_story, hparts, hL, if_false, ite_false, hop]
    refine ⟨trivial, trivial, ?_⟩
    rw [story_loop_aiCount _ hnd (mp - 1) 1]

/-- Witness for the amended C4: a concrete two-participant chat whose provider
succeeds once and then fails keeps only the one successful message and is not
completed; the concrete two-part story with the always-failing provider is
completed with one fallback message appended. -/
theorem C4_provider_failure_amended_witness :
    ((generate_multi_character_conversation
        (fun k => if k = 0 then Except.ok "Hi" else Except.error ())
        { type := "chat", chatMode := some "multi",
          characters := [⟨"a", "A"⟩, ⟨"b", "B"⟩], turns := some 2 }).2 =
      MultiOutcome.falseRet ∧
     (generate_multi_character_conversation
        (fun k => if k = 0 then Except.ok "Hi" else Except.error ())
        { type := "chat", chatMode := some "multi",
          characters := [⟨"a", "A"⟩, ⟨"b", "B"⟩], turns := some 2 }).1.status =
      ({ type := "chat", chatMode := some "multi",
         characters := [⟨"a", "A"⟩, ⟨"b", "B"⟩], turns := some 2 }
         : Session).status ∧
     (generate_multi_character_conversation
        (fun k => if k = 0 then Except.ok "Hi" else Except.error ())
        { type := "chat", chatMode := some "multi",
          characters := [⟨"a", "A"⟩, ⟨"b", "B"⟩],
          turns := some 2 }).1.is_completed =
      ({ type := "chat", chatMode := some "multi",
         characters := [⟨"a", "A"⟩, ⟨"b", "B"⟩], turns := some 2 }
         : Session).is_completed ∧
     (generate_multi_character_conversation
        (fun k => if k = 0 then Except.ok "Hi" else Except.error ())
        { type := "chat", chatMode := some "multi",
          characters := [⟨"a", "A"⟩, ⟨"b", "B"⟩],
          turns := some 2 }).1.messages.length =
      ({ type := "chat", chatMode := some "multi",
         characters := [⟨"a", "A"⟩, ⟨"b", "B"⟩], turns := some 2 }
         : Session).messages.length + 1 ∧
     (generate_multi_character_conversation
        (fun k => if k = 0 then Except.ok "Hi" else Except.error ())
        { type := "chat", chatMode := some "multi",
          characters := [⟨"a", "A"⟩, ⟨"b", "B"⟩],
          turns := some 2 }).1.messages.take
        ({ type := "chat", chatMode := some "multi",
           characters := [⟨"a", "A"⟩, ⟨"b", "B"⟩], turns := some 2 }
           : Session).messages.length =
      ({ type := "chat", chatMode := some "multi",
         characters := [⟨"a", "A"⟩, ⟨"b", "B"⟩], turns := some 2 }
         : Session).messages) ∧
    ((generate_complete_story errProvider c4StoryEx).1.status =
       "completed" ∧
     (generate_complete_story errProvider c4StoryEx).1.is_completed = true ∧
     aiCount (generate_complete_story errProvider c4StoryEx).1.messages =
       aiCount c4StoryEx.messages + (2 - 1)) := by
  exact ⟨C4_provider_failure_amended.1 _ _ 2 1 (by decide) rfl (by decide)
      (by decide) rfl,
    C4_provider_failure_amended.2 c4StoryEx 2 rfl (by decide)⟩

end SessionEngine
